import Mathlib

/-!
Verification development for the GitHub-Scraper repository (main.ipynb).

The notebook is shallowly embedded: network responses are supplied by an
oracle function, wall-clock time is an explicit parameter, and the side
effects of the scraping loop (HTTP requests issued, rate-limit header
inspections, sleeps) are recorded as an explicit event trace.
-/

namespace GHScraper

/-! ## Rate-limit wait computation

Embeds the rate-limit branch of scrape_github_repositories:
  sleep_duration = reset_time - time.time() + 1
  time.sleep(max(sleep_duration, 0))
The reset timestamp is an integer (epoch seconds from the header); the
current time is modelled as a rational, as time.time() is fractional. -/

def sleep_duration (reset : Int) (now : ℚ) : ℚ := (reset : ℚ) - now + 1

/-- The duration actually passed to time.sleep: max(sleep_duration, 0). -/
def slept_duration (reset : Int) (now : ℚ) : ℚ := max (sleep_duration reset now) 0

/-! ## The paginated search collector (scrape_github_repositories)

The outcome of one requests.get call for (query, page), as seen by the
code after raise_for_status and body parsing:
  - ok: 2xx response, parsed body; items list, plus the X-RateLimit-Remaining
    and X-RateLimit-Reset headers;
  - httpError: a handled RequestException raised after a response arrived
    (non-2xx status, or malformed JSON body on requests >= 2.27) - headers
    are present on the response but the except branch runs;
  - netError: transport failure, no response object exists. -/

abbrev Item := Nat

inductive FetchOutcome where
  | ok (items : List Item) (remaining : Int) (reset : Int)
  | httpError (remaining : Int) (reset : Int)
  | netError
deriving DecidableEq

def FetchOutcome.isOk : FetchOutcome → Bool
  | .ok _ _ _ => true
  | _ => false

def FetchOutcome.itemsOf : FetchOutcome → List Item
  | .ok items _ _ => items
  | _ => []

/-- Observable events of one run of the scraping loop.
request q p per: an HTTP GET to /search/repositories with payload
\x7bq, per_page := per, page := p\x7d (recorded before the outcome is known).
rateCheck: the reads of the X-RateLimit-Remaining / X-RateLimit-Reset headers.
sleep: a call to time.sleep with the given duration. -/
inductive Event (α : Type) where
  | request (q : α) (page perPage : Nat)
  | rateCheck (remaining reset : Int)
  | sleep (duration : ℚ)
deriving DecidableEq

def Event.isRequest {α : Type} : Event α → Bool
  | .request _ _ _ => true
  | _ => false

def Event.isRateCheck {α : Type} : Event α → Bool
  | .rateCheck _ _ => true
  | _ => false

/-- Events emitted by the rate-limit handling after a successful page:
the header reads, then a sleep if remaining == 0. -/
def rateEvents (α : Type) (remaining reset : Int) (now : ℚ) : List (Event α) :=
  Event.rateCheck remaining reset ::
    (if remaining = 0 then [Event.sleep (slept_duration reset now)] else [])

/-- The inner page loop of scrape_github_repositories for one query,
over an explicit list of page numbers (the code uses range(1, pages+1)).
On ok: items are extended (an empty list extends by nothing, matching the
if items: branch) and the rate-limit headers are handled, then the next
page runs. On httpError or netError the except branch logs and breaks:
no further page of this query, and no rate-limit handling for this page. -/
def scrape_query_pages {α : Type} (fetch : α → Nat → FetchOutcome) (now : ℚ) (q : α) :
    List Nat → List (Event α) × List Item
  | [] => ([], [])
  | p :: rest =>
    match fetch q p with
    | .ok items remaining reset =>
      let next := scrape_query_pages fetch now q rest
      (Event.request q p 100 :: (rateEvents α remaining reset now ++ next.1),
       items ++ next.2)
    | .httpError _ _ => ([Event.request q p 100], [])
    | .netError => ([Event.request q p 100], [])

/-- scrape_github_repositories: for each query in order, pages
1..pages via the inner loop; returns the event trace and the
accumulated repositories_list. -/
def scrape_github_repositories {α : Type} (queries : List α)
    (fetch : α → Nat → FetchOutcome) (now : ℚ) (pages : Nat) :
    List (Event α) × List Item :=
  match queries with
  | [] => ([], [])
  | q :: rest =>
    let first := scrape_query_pages fetch now q (List.range' 1 pages)
    let others := scrape_github_repositories rest fetch now pages
    (first.1 ++ others.1, first.2 ++ others.2)

/-- The page numbers for which a request is actually issued, over a given
page list: every page is requested until (and including) the first one
whose fetch is not ok. -/
def requestedPages {α : Type} (fetch : α → Nat → FetchOutcome) (q : α) :
    List Nat → List Nat
  | [] => []
  | p :: rest =>
    p :: (match fetch q p with
          | .ok _ _ _ => requestedPages fetch q rest
          | _ => [])

def requestEvents {α : Type} (evs : List (Event α)) : List (Event α) :=
  evs.filter Event.isRequest

/-! ## Credential loading (load_access_tokens) and the main workflow

os.getenv returns None when the variable is absent; the code tests
  if not access_token_1 or not access_token_2
so both None and the empty string count as missing. A failure raises
ValueError; main catches it and returns before any fetch. -/

inductive TokenError where
  | valueError (msg : String)
deriving DecidableEq

/-- Python truthiness of an optional string: falsy when None or empty. -/
def pyFalsy : Option String → Bool
  | none => true
  | some s => s.isEmpty

def load_access_tokens (env : String → Option String) :
    Except TokenError (String × String) :=
  match env "token_1", env "token_2" with
  | some a, some b =>
    if a.isEmpty || b.isEmpty then
      .error (.valueError "One or both access tokens are missing in the .env file.")
    else .ok (a, b)
  | _, _ => .error (.valueError "One or both access tokens are missing in the .env file.")

/-- The hard-coded search queries of main. -/
def main_search_queries : List String :=
  ["front-end", "back-end", "full-stack", "web-development",
   "mobile-development", "data-science", "machine-learning",
   "artificial-intelligence", "cloud-computing", "cybersecurity"]

/-- The network-visible behaviour of main up to the identifier lists it
dispatches: the search-stage event trace, the usernames submitted to the
user detail stage, and the org names submitted to the organization detail
stage. analyze stands for analyze_users_and_organizations (a CSV
round-trip, external I/O glue). When load_access_tokens fails, main
catches the ValueError and returns: no request of any kind is made. -/
def mainRun (env : String → Option String) (fetch : String → Nat → FetchOutcome)
    (analyze : List Item → List String × List String) (now : ℚ) :
    List (Event String) × List String × List String :=
  match load_access_tokens env with
  | .error _ => ([], [], [])
  | .ok _ =>
    let scraped := scrape_github_repositories main_search_queries fetch now 10
    let ua := analyze scraped.2
    (scraped.1, ua.1, ua.2)

/-! ## The concurrent detail-fetch stage of main

main submits one fetch_user_details task per element of the users list
(enumerate(users)), then gathers [f.result() for f in future_tasks if
f.result() is not None] in submission order. Each task is pure given the
response oracle; a failed fetch returns None (fetch_user_details catches
HTTPError, RequestException and Exception). Completion order is modelled
as an explicit schedule: a list of task indices in the order the pool
finishes them; with-ThreadPoolExecutor joins, so every index appears. -/

/-- The list of submitted tasks, one per element of users, in list order,
each identified by the username it will fetch (mirrors the
executor.submit comprehension in main). -/
def future_tasks (users : List String) : List String := users

/-- How many tasks of the run fetch the identifier x. -/
def timesFetched (users : List String) (x : String) : Nat :=
  (future_tasks users).count x

/-- pandas Series.unique as used by analyze_users_and_organizations:
keeps the first occurrence of each value, in order of appearance. -/
def pandas_unique : List String → List String
  | [] => []
  | x :: xs => x :: pandas_unique (xs.filter (fun y => y != x))
termination_by l => l.length
decreasing_by
  simp only [List.length_cons]
  exact Nat.lt_succ_of_le (List.length_filter_le _ _)

/-- Executing a schedule: each index i in the schedule runs its task and
stores the result in slot i; a slot never run holds none, a slot run with
a failed fetch holds some none. -/
def run_schedule (task : Nat → Option Nat) : List Nat → Nat → Option (Option Nat)
  | [], _ => none
  | i :: σ, j => if j = i then some (task i) else run_schedule task σ j

/-- The gather step of main: walk the futures in submission order and keep
the non-None results. -/
def gather (n : Nat) (slots : Nat → Option (Option Nat)) : List Nat :=
  (List.range n).filterMap (fun i => (slots i).bind id)

/-- The whole detail-fetch stage: submit one task per user, run them in
schedule order, gather results in submission order. Detail records are
modelled as abstract Nat values. -/
def userDetailsStage (users : List String) (fetchUser : String → Option Nat)
    (σ : List Nat) : List Nat :=
  gather users.length (run_schedule (fun i => users[i]?.bind fetchUser) σ)

/-! ## The tabular sink (save_repositories_to_csv)

A raw record is a parsed JSON object: a key-value list. The row builder
mirrors the repository_records list comprehension field by field. -/

inductive Val where
  | null
  | bool (b : Bool)
  | int (n : Int)
  | str (s : String)
  | arr (xs : List Val)
  | obj (fields : List (String × Val))

abbrev RawRecord := List (String × Val)

/-- dict.get(k, d): the value at k, or the default when the key is absent. -/
def pyGet (r : RawRecord) (k : String) (d : Val) : Val := (r.lookup k).getD d

/-- repo.get("owner", \x7b\x7d) followed by attribute access: defined for
records whose owner field, when present, is a JSON object - the shape the
API guarantees; a non-object owner would raise AttributeError in the
source and abort the whole save. -/
def getOwner (r : RawRecord) : RawRecord :=
  match r.lookup "owner" with
  | some (.obj f) => f
  | _ => []

def Val.asStr : Val → String
  | .str s => s
  | _ => ""

/-- ", ".join(repo.get("topics", [])): topics is an array of strings in the
API schema (a non-string element would raise TypeError in the source). -/
def joinTopics (r : RawRecord) : String :=
  match r.lookup "topics" with
  | some (.arr xs) => String.intercalate ", " (xs.map Val.asStr)
  | _ => ""

/-- One output row of save_repositories_to_csv, field for field. -/
def repository_record (repo : RawRecord) : List (String × Val) :=
  [("Repository Name", pyGet repo "name" (.str "N/A")),
   ("Owner Username", pyGet (getOwner repo) "login" (.str "N/A")),
   ("Owner Profile URL", pyGet (getOwner repo) "html_url" (.str "N/A")),
   ("Owner Type", pyGet (getOwner repo) "type" (.str "N/A")),
   ("Description", pyGet repo "description" (.str "N/A")),
   ("Created Date", pyGet repo "created_at" (.str "N/A")),
   ("Updated Date", pyGet repo "updated_at" (.str "N/A")),
   ("Last Pushed Date", pyGet repo "pushed_at" (.str "N/A")),
   ("Repository Size (KB)", pyGet repo "size" (.str "N/A")),
   ("Stars Count", pyGet repo "stargazers_count" (.int 0)),
   ("Watchers Count", pyGet repo "watchers_count" (.int 0)),
   ("Primary Language", pyGet repo "language" (.str "N/A")),
   ("Forks Count", pyGet repo "forks_count" (.int 0)),
   ("Open Issues Count", pyGet repo "open_issues_count" (.int 0)),
   ("Topics", .str (joinTopics repo)),
   ("Default Branch", pyGet repo "default_branch" (.str "N/A"))]

/-- save_repositories_to_csv: returns none (writes nothing) on an empty
input, otherwise the rows written, one per record, in order. -/
def save_repositories_to_csv (repos : List RawRecord) :
    Option (List (List (String × Val))) :=
  if repos.isEmpty then none else some (repos.map repository_record)

/-! ## Concrete oracle instances used to evaluate the theorems -/

/-- Every page succeeds; plenty of quota. -/
def fetchC6w : Nat → Nat → FetchOutcome := fun _ _ => .ok [3] 5 60

/-- Query 1 fails with a transport error on page 2; all else succeeds. -/
def fetchC2w : Nat → Nat → FetchOutcome :=
  fun q p => if q = 1 ∧ p = 2 then .netError else .ok [10 * q + p] 5 60

/-- Every request is answered with a non-2xx response whose rate-limit
headers read remaining 0, reset 5. -/
def fetchC4cex : Nat → Nat → FetchOutcome := fun _ _ => .httpError 0 5

/-- Every page succeeds with two items and an exhausted quota header. -/
def fetchOkZeroW : Nat → Nat → FetchOutcome := fun _ _ => .ok [1, 2] 0 60

/-- Page 1 succeeds with an empty items list; later pages are non-empty. -/
def fetchC7w : Nat → Nat → FetchOutcome :=
  fun _ p => if p = 1 then .ok [] 7 60 else .ok [p] 7 60

def users10 : List String :=
  ["u0", "u1", "u2", "u3", "u4", "u5", "u6", "u7", "u8", "u9"]

/-- Deterministically fails for u1, u4 and u7; succeeds otherwise. -/
def fetchUserW : String → Option Nat :=
  fun s => if s = "u1" ∨ s = "u4" ∨ s = "u7" then none else some s.length

/-- A completion order that is the reverse of submission order. -/
def sched10 : List Nat := [9, 8, 7, 6, 5, 4, 3, 2, 1, 0]

def usersC10w : List String := ["alice", "bob", "carol"]

def fetchUserC10w : String → Option Nat :=
  fun s => if s = "bob" then none else some s.length

def schedC10w : List Nat := [2, 0, 1]

/-- An environment with no variables set at all. -/
def envNoneW : String → Option String := fun _ => none

def fetchNetW : String → Nat → FetchOutcome := fun _ _ => .netError

def analyzeEmptyW : List Item → List String × List String := fun _ => ([], [])

/-- A raw record missing both stargazers_count and description. -/
def repoMissingW : RawRecord := [("name", Val.str "demo")]

/-! ## Helper lemmas -/

theorem rateEvents_filter (α : Type) (remaining reset : Int) (now : ℚ) :
    (rateEvents α remaining reset now).filter Event.isRequest = [] := by
  rcases Decidable.em (remaining = 0) with h | h <;>
    simp [rateEvents, h, Event.isRequest]

theorem scrape_query_requests {α : Type} (fetch : α → Nat → FetchOutcome)
    (now : ℚ) (q : α) (ps : List Nat) :
    (scrape_query_pages fetch now q ps).1.filter Event.isRequest =
      (requestedPages fetch q ps).map (fun p => Event.request q p 100) := by
  induction ps with
  | nil => rfl
  | cons p rest ih =>
    cases hf : fetch q p with
    | ok items r s =>
      simp [scrape_query_pages, requestedPages, hf, List.filter_append,
        rateEvents_filter, Event.isRequest, ih]
    | httpError r s => simp [scrape_query_pages, requestedPages, hf, Event.isRequest]
    | netError => simp [scrape_query_pages, requestedPages, hf, Event.isRequest]

theorem scrape_append_fst {α : Type} (qs₁ qs₂ : List α)
    (fetch : α → Nat → FetchOutcome) (now : ℚ) (pages : Nat) :
    (scrape_github_repositories (qs₁ ++ qs₂) fetch now pages).1 =
      (scrape_github_repositories qs₁ fetch now pages).1 ++
        (scrape_github_repositories qs₂ fetch now pages).1 := by
  induction qs₁ with
  | nil => simp [scrape_github_repositories]
  | cons q qs ih => simp [scrape_github_repositories, ih]

theorem scrape_append_snd {α : Type} (qs₁ qs₂ : List α)
    (fetch : α → Nat → FetchOutcome) (now : ℚ) (pages : Nat) :
    (scrape_github_repositories (qs₁ ++ qs₂) fetch now pages).2 =
      (scrape_github_repositories qs₁ fetch now pages).2 ++
        (scrape_github_repositories qs₂ fetch now pages).2 := by
  induction qs₁ with
  | nil => simp [scrape_github_repositories]
  | cons q qs ih => simp [scrape_github_repositories, ih]

theorem requestedPages_all_ok {α : Type} (fetch : α → Nat → FetchOutcome)
    (q : α) (ps : List Nat) (h : ∀ p ∈ ps, (fetch q p).isOk = true) :
    requestedPages fetch q ps = ps := by
  induction ps with
  | nil => rfl
  | cons p rest ih =>
    have hp := h p (List.mem_cons_self p rest)
    cases hf : fetch q p with
    | ok items r s =>
      simp only [requestedPages, hf]
      exact congrArg _ (ih fun p' h' => h p' (List.mem_cons_of_mem _ h'))
    | httpError r s => simp [FetchOutcome.isOk, hf] at hp
    | netError => simp [FetchOutcome.isOk, hf] at hp

theorem requestedPages_fail {α : Type} (fetch : α → Nat → FetchOutcome)
    (q : α) (ps₁ : List Nat) (p : Nat) (ps₂ : List Nat)
    (hok : ∀ p' ∈ ps₁, (fetch q p').isOk = true)
    (hfail : (fetch q p).isOk = false) :
    requestedPages fetch q (ps₁ ++ p :: ps₂) = ps₁ ++ [p] := by
  induction ps₁ with
  | nil =>
    cases hf : fetch q p with
    | ok items r s => simp [FetchOutcome.isOk, hf] at hfail
    | httpError r s => simp [requestedPages, hf]
    | netError => simp [requestedPages, hf]
  | cons p₀ rest ih =>
    have hp := hok p₀ (List.mem_cons_self p₀ rest)
    cases hf : fetch q p₀ with
    | ok items r s =>
      simp only [List.cons_append, requestedPages, hf]
      exact congrArg _ (ih fun p' h' => hok p' (List.mem_cons_of_mem _ h'))
    | httpError r s => simp [FetchOutcome.isOk, hf] at hp
    | netError => simp [FetchOutcome.isOk, hf] at hp

theorem scrape_query_items_fail {α : Type} (fetch : α → Nat → FetchOutcome)
    (now : ℚ) (q : α) (ps₁ : List Nat) (p : Nat) (ps₂ : List Nat)
    (hok : ∀ p' ∈ ps₁, (fetch q p').isOk = true)
    (hfail : (fetch q p).isOk = false) :
    (scrape_query_pages fetch now q (ps₁ ++ p :: ps₂)).2 =
      (ps₁.map (fun p' => (fetch q p').itemsOf)).flatten := by
  induction ps₁ with
  | nil =>
    cases hf : fetch q p with
    | ok items r s => simp [FetchOutcome.isOk, hf] at hfail
    | httpError r s => simp [scrape_query_pages, hf]
    | netError => simp [scrape_query_pages, hf]
  | cons p₀ rest ih =>
    have hp := hok p₀ (List.mem_cons_self p₀ rest)
    cases hf : fetch q p₀ with
    | ok items r s =>
      simp only [List.cons_append, scrape_query_pages, hf, List.map_cons,
        List.flatten, FetchOutcome.itemsOf]
      exact congrArg _ (ih fun p' h' => hok p' (List.mem_cons_of_mem _ h'))
    | httpError r s => simp [FetchOutcome.isOk, hf] at hp
    | netError => simp [FetchOutcome.isOk, hf] at hp

theorem run_schedule_mem (task : Nat → Option Nat) (σ : List Nat) (j : Nat)
    (h : j ∈ σ) : run_schedule task σ j = some (task j) := by
  induction σ with
  | nil => cases h
  | cons i σ ih =>
    by_cases hj : j = i
    · subst hj; simp [run_schedule]
    · rcases List.mem_cons.mp h with h' | h'
      · exact absurd h' hj
      · simp [run_schedule, hj, ih h']

theorem range_filterMap_get (l : List String) (f : String → Option Nat) :
    (List.range l.length).filterMap (fun i => l[i]?.bind f) =
      l.filterMap f := by
  induction l with
  | nil => rfl
  | cons a l ih =>
    rw [List.length_cons, List.range_succ_eq_map]
    cases hfa : f a <;>
      simp [hfa, List.filterMap_cons, List.filterMap_map, Function.comp_def,
        List.getElem?_cons_succ, ih]

theorem stage_eq_filterMap (users : List String) (f : String → Option Nat)
    (σ : List Nat) (h : ∀ j < users.length, j ∈ σ) :
    userDetailsStage users f σ = users.filterMap f := by
  unfold userDetailsStage gather
  have h1 : ∀ i ∈ List.range users.length,
      (run_schedule (fun i => users[i]?.bind f) σ i).bind id =
        users[i]?.bind f := by
    intro i hi
    rw [run_schedule_mem _ _ _ (h i (List.mem_range.mp hi))]
    rfl
  rw [List.filterMap_congr h1, range_filterMap_get]

theorem filterMap_length_eq (l : List String) (f : String → Option Nat) :
    (l.filterMap f).length = (l.filter (fun u => (f u).isSome)).length := by
  induction l with
  | nil => rfl
  | cons a l ih =>
    cases h : f a <;> simp [List.filterMap_cons, List.filter_cons, h, ih]

theorem count_pandas_unique (l : List String) (x : String) :
    (pandas_unique l).count x = if x ∈ l then 1 else 0 := by
  induction l using pandas_unique.induct with
  | case1 => simp [pandas_unique]
  | case2 a xs ih =>
    by_cases hx : x = a
    · subst hx
      have hnot : x ∉ xs.filter (fun y => y != x) := by
        intro hmem
        have := (List.mem_filter.mp hmem).2
        simp at this
      rw [pandas_unique, List.count_cons_self, ih, if_neg hnot]
      simp
    · have hmemiff : (x ∈ xs.filter fun y => y != a) ↔ x ∈ xs := by
        constructor
        · exact fun hm => (List.mem_filter.mp hm).1
        · intro hm
          exact List.mem_filter.mpr ⟨hm, by simp [hx]⟩
      rw [pandas_unique, List.count_cons_of_ne hx, ih, if_congr hmemiff rfl rfl]
      simp [List.mem_cons, hx]

/-! ## Claim theorems -/

/-- C1 counterexample: with remaining = 0, reset_timestamp = 100 and
now = 100 (reset_timestamp ≤ now), the duration passed to time.sleep is
1 second, not the 0 the claim requires for every reset_timestamp ≤ now. -/
theorem claim_c1_cex : ((100 : Int) : ℚ) ≤ 100 ∧ slept_duration 100 100 ≠ 0 := by
  constructor
  · norm_num
  · norm_num [slept_duration, sleep_duration]

/-- C1 (amended): the duration slept is max(reset_timestamp - now + 1, 0),
hence never negative; it is exactly 0 for every reset_timestamp ≤ now - 1,
and exactly reset_timestamp - now + 1 for every reset_timestamp > now - 1
(in particular 1, not 0, at reset_timestamp = now). -/
theorem claim_c1 (reset : Int) (now : ℚ) :
    slept_duration reset now = max (sleep_duration reset now) 0 ∧
    0 ≤ slept_duration reset now ∧
    ((reset : ℚ) ≤ now - 1 → slept_duration reset now = 0) ∧
    (now - 1 < (reset : ℚ) → slept_duration reset now = sleep_duration reset now) := by
  refine ⟨rfl, le_max_right _ _, fun h => ?_, fun h => ?_⟩
  · have hd : sleep_duration reset now ≤ 0 := by
      unfold sleep_duration
      linarith
    exact max_eq_right hd
  · have hd : (0 : ℚ) ≤ sleep_duration reset now := by
      unfold sleep_duration
      linarith
    exact max_eq_left hd

theorem claim_c1_witness :
    slept_duration 50 100 = 0 ∧ slept_duration 200 100 = sleep_duration 200 100 :=
  ⟨(claim_c1 50 100).2.2.1 (by norm_num), (claim_c1 200 100).2.2.2 (by norm_num)⟩

/-- C2: when page p of query q is the first failing page (given by a
decomposition of the page range), the collection keeps everything from the
earlier queries, keeps the items of the pages of q before p, issues no
request for the pages of q after p, and still processes every later query
exactly as it would alone. -/
theorem claim_c2 {α : Type} (qs₁ qs₂ : List α) (q : α)
    (fetch : α → Nat → FetchOutcome) (now : ℚ) (pages : Nat)
    (ps₁ : List Nat) (p : Nat) (ps₂ : List Nat)
    (hdec : List.range' 1 pages = ps₁ ++ p :: ps₂)
    (hok : ∀ p' ∈ ps₁, (fetch q p').isOk = true)
    (hfail : (fetch q p).isOk = false) :
    (scrape_github_repositories (qs₁ ++ q :: qs₂) fetch now pages).2 =
      (scrape_github_repositories qs₁ fetch now pages).2 ++
        (ps₁.map (fun p' => (fetch q p').itemsOf)).flatten ++
        (scrape_github_repositories qs₂ fetch now pages).2 ∧
    requestEvents (scrape_github_repositories (qs₁ ++ q :: qs₂) fetch now pages).1 =
      requestEvents (scrape_github_repositories qs₁ fetch now pages).1 ++
        (ps₁ ++ [p]).map (fun p' => Event.request q p' 100) ++
        requestEvents (scrape_github_repositories qs₂ fetch now pages).1 := by
  have hq2 : scrape_github_repositories (q :: qs₂) fetch now pages =
      ((scrape_query_pages fetch now q (List.range' 1 pages)).1 ++
         (scrape_github_repositories qs₂ fetch now pages).1,
       (scrape_query_pages fetch now q (List.range' 1 pages)).2 ++
         (scrape_github_repositories qs₂ fetch now pages).2) := rfl
  constructor
  · rw [scrape_append_snd, hq2, hdec,
      scrape_query_items_fail fetch now q ps₁ p ps₂ hok hfail, List.append_assoc]
  · rw [scrape_append_fst, hq2]
    unfold requestEvents
    rw [List.filter_append, List.filter_append, hdec,
      scrape_query_requests fetch now q (ps₁ ++ p :: ps₂),
      requestedPages_fail fetch q ps₁ p ps₂ hok hfail, List.append_assoc]

theorem claim_c2_witness :
    (scrape_github_repositories ([] ++ 1 :: [9]) fetchC2w 0 2).2 =
      (scrape_github_repositories [] fetchC2w 0 2).2 ++
        ([1].map (fun p' => (fetchC2w 1 p').itemsOf)).flatten ++
        (scrape_github_repositories [9] fetchC2w 0 2).2 ∧
    requestEvents (scrape_github_repositories ([] ++ 1 :: [9]) fetchC2w 0 2).1 =
      requestEvents (scrape_github_repositories [] fetchC2w 0 2).1 ++
        ([1] ++ [2]).map (fun p' => Event.request 1 p' 100) ++
        requestEvents (scrape_github_repositories [9] fetchC2w 0 2).1 :=
  claim_c2 [] [9] 1 fetchC2w 0 2 [1] 2 [] (by decide) (by decide) (by decide)

/-- C7: a successful page whose items list is empty contributes nothing to
the accumulator, and iteration continues with the remaining pages of the
same query (the rate-limit handling still runs, then the next page). -/
theorem claim_c7 {α : Type} (fetch : α → Nat → FetchOutcome) (now : ℚ)
    (q : α) (p : Nat) (rest : List Nat) (remaining reset : Int)
    (h : fetch q p = .ok [] remaining reset) :
    (scrape_query_pages fetch now q (p :: rest)).2 =
      (scrape_query_pages fetch now q rest).2 ∧
    (scrape_query_pages fetch now q (p :: rest)).1 =
      Event.request q p 100 ::
        (rateEvents α remaining reset now ++ (scrape_query_pages fetch now q rest).1) := by
  constructor <;> simp [scrape_query_pages, h]

theorem claim_c7_witness :
    (scrape_query_pages fetchC7w 0 0 (1 :: [2])).2 =
      (scrape_query_pages fetchC7w 0 0 [2]).2 ∧
    (scrape_query_pages fetchC7w 0 0 (1 :: [2])).1 =
      Event.request 0 1 100 ::
        (rateEvents Nat 7 60 0 ++ (scrape_query_pages fetchC7w 0 0 [2]).1) :=
  claim_c7 fetchC7w 0 0 1 [2] 7 60 (by decide)

/-- C4 counterexample: one query, one page, every request answered by a
non-2xx response whose rate-limit headers are present and read
remaining = 0: the loop breaks in the except branch and the resulting
trace contains no header inspection at all, so the headers of a handled
HTTP error are never inspected and no quota wait is imposed. -/
theorem claim_c4_cex :
    fetchC4cex 0 1 = FetchOutcome.httpError 0 5 ∧
    (scrape_github_repositories [0] fetchC4cex 0 1).1.filter Event.isRateCheck = [] ∧
    (scrape_github_repositories [0] fetchC4cex 0 1).1 = [Event.request 0 1 100] := by
  refine ⟨rfl, ?_, ?_⟩ <;> rfl

/-- C4 (amended): the rate-limit headers are inspected only after a
successful response - then the inspection, and the quota wait when
remaining = 0, happen before the next request is issued; on a handled
HTTP error the except branch breaks out of the page loop without
inspecting the headers of that response. -/
theorem claim_c4 {α : Type} (fetch : α → Nat → FetchOutcome) (now : ℚ)
    (q : α) (p : Nat) (rest : List Nat) (items : List Item)
    (remaining reset : Int) :
    (fetch q p = .ok items remaining reset →
      (scrape_query_pages fetch now q (p :: rest)).1 =
        Event.request q p 100 :: Event.rateCheck remaining reset ::
          ((if remaining = 0 then [Event.sleep (slept_duration reset now)] else []) ++
            (scrape_query_pages fetch now q rest).1)) ∧
    (fetch q p = .httpError remaining reset →
      (scrape_query_pages fetch now q (p :: rest)).1 = [Event.request q p 100]) := by
  constructor <;> intro h <;> simp [scrape_query_pages, h, rateEvents]

theorem claim_c4_witness :
    (scrape_query_pages fetchOkZeroW 0 0 (1 :: [])).1 =
      Event.request 0 1 100 :: Event.rateCheck 0 60 ::
        ((if (0 : Int) = 0 then [Event.sleep (slept_duration 60 0)] else []) ++
          (scrape_query_pages fetchOkZeroW 0 0 []).1) ∧
    (scrape_query_pages fetchC4cex 0 0 (1 :: [])).1 = [Event.request 0 1 100] :=
  ⟨(claim_c4 fetchOkZeroW 0 0 1 [] [1, 2] 0 60).1 rfl,
   (claim_c4 fetchC4cex 0 0 1 [] [] 0 5).2 rfl⟩

/-- C6: the requests issued by a run are exactly, for each query in input
order, its requested pages taken from 1, 2, 3, ... in increasing order,
every one with per_page = 100; and a query none of whose pages fails is
requested for the whole range 1..pages. -/
theorem claim_c6 {α : Type} (queries : List α) (fetch : α → Nat → FetchOutcome)
    (now : ℚ) (pages : Nat) :
    requestEvents (scrape_github_repositories queries fetch now pages).1 =
      queries.flatMap (fun q =>
        (requestedPages fetch q (List.range' 1 pages)).map
          (fun p => Event.request q p 100)) ∧
    ∀ q : α, (∀ p ∈ List.range' 1 pages, (fetch q p).isOk = true) →
      requestedPages fetch q (List.range' 1 pages) = List.range' 1 pages := by
  constructor
  · induction queries with
    | nil => rfl
    | cons q qs ih =>
      unfold requestEvents at ih ⊢
      simp only [scrape_github_repositories, List.filter_append,
        scrape_query_requests, List.flatMap_cons, ih]
  · intro q h
    exact requestedPages_all_ok fetch q _ h

theorem claim_c6_witness :
    requestedPages fetchC6w 7 (List.range' 1 2) = List.range' 1 2 ∧
    requestEvents (scrape_github_repositories [7, 8] fetchC6w 0 2).1 =
      [7, 8].flatMap (fun q =>
        (requestedPages fetchC6w q (List.range' 1 2)).map
          (fun p => Event.request q p 100)) :=
  ⟨(claim_c6 [7, 8] fetchC6w 0 2).2 7 (by decide), (claim_c6 [7, 8] fetchC6w 0 2).1⟩

/-- C3 counterexample: the detail-fetch stage of main given the list
["a", "a"] dispatches two tasks for the identifier "a" - it fetches it
twice, not exactly once, so the stage does not tolerate duplicates. -/
theorem claim_c3_cex :
    timesFetched ["a", "a"] "a" = 2 ∧ timesFetched ["a", "a"] "a" ≠ 1 := by
  constructor <;> decide

/-- C3 (amended): the detail-fetch stage dispatches one task per element
of its input list and does not itself deduplicate, so a repeated
identifier is fetched once per occurrence; each identifier is fetched
exactly once in the pipeline because the upstream
analyze_users_and_organizations deduplicates with pandas unique, whose
output has every identifier of the original list exactly once. -/
theorem claim_c3 (l : List String) (x : String) (h : x ∈ l) :
    timesFetched (pandas_unique l) x = 1 := by
  unfold timesFetched future_tasks
  rw [count_pandas_unique, if_pos h]

theorem claim_c3_witness : timesFetched (pandas_unique ["a", "b", "a"]) "a" = 1 :=
  claim_c3 ["a", "b", "a"] "a" (by decide)

/-- C5: for any schedule in which every submitted task completes (the
with-block of the ThreadPoolExecutor joins all futures), the detail-fetch
stage returns exactly one record per identifier whose fetch succeeds and
none for a failed identifier, whatever the completion order produced by
the pool - a failing task only removes its own record. -/
theorem claim_c5 (users : List String) (fetchUser : String → Option Nat)
    (σ : List Nat) (h : ∀ j < users.length, j ∈ σ) :
    (userDetailsStage users fetchUser σ).length =
      (users.filter (fun u => (fetchUser u).isSome)).length := by
  rw [stage_eq_filterMap users fetchUser σ h, filterMap_length_eq]

/-- C5 witness: 10 identifiers of which u1, u4 and u7 deterministically
fail, run in reverse completion order: exactly 7 records come back. -/
theorem claim_c5_witness : (userDetailsStage users10 fetchUserW sched10).length = 7 :=
  (claim_c5 users10 fetchUserW sched10 (by decide)).trans (by decide)

/-- C10: whenever every submitted task completes, the gather step walks
the futures in submission order, so the stage returns the records of the
successful identifiers in exactly the input order, independent of the
completion order. -/
theorem claim_c10 (users : List String) (fetchUser : String → Option Nat)
    (σ : List Nat) (h : ∀ j < users.length, j ∈ σ) :
    userDetailsStage users fetchUser σ = users.filterMap fetchUser :=
  stage_eq_filterMap users fetchUser σ h

theorem claim_c10_witness :
    userDetailsStage usersC10w fetchUserC10w schedC10w = [5, 5] :=
  (claim_c10 usersC10w fetchUserC10w schedC10w (by decide)).trans (by decide)

/-- C8: whenever token_1 or token_2 is absent from the environment,
load_access_tokens raises ValueError, and main catches it and returns at
once: no search request is issued and no user or organization detail
fetch is dispatched. -/
theorem claim_c8 (env : String → Option String)
    (fetch : String → Nat → FetchOutcome)
    (analyze : List Item → List String × List String) (now : ℚ)
    (h : env "token_1" = none ∨ env "token_2" = none) :
    (∃ m, load_access_tokens env = .error (.valueError m)) ∧
    mainRun env fetch analyze now = ([], [], []) := by
  have herr : load_access_tokens env =
      .error (.valueError "One or both access tokens are missing in the .env file.") := by
    unfold load_access_tokens
    rcases h with h | h
    · rw [h]
    · rw [h]
      rcases env "token_1" with _ | a <;> rfl
  refine ⟨⟨_, herr⟩, ?_⟩
  simp [mainRun, herr]

theorem claim_c8_witness : mainRun envNoneW fetchNetW analyzeEmptyW 0 = ([], [], []) :=
  (claim_c8 envNoneW fetchNetW analyzeEmptyW 0 (Or.inl rfl)).2

/-- C9: the row built by save_repositories_to_csv for a record missing
stargazers_count carries the integer 0 in the Stars Count column, and for
a record missing description carries the string N/A in the Description
column - present values, not absent cells or nulls. -/
theorem claim_c9 (repo : RawRecord) :
    (repo.lookup "stargazers_count" = none →
      (repository_record repo).lookup "Stars Count" = some (Val.int 0)) ∧
    (repo.lookup "description" = none →
      (repository_record repo).lookup "Description" = some (Val.str "N/A")) := by
  constructor <;> intro h <;> simp [repository_record, List.lookup, pyGet, h]

theorem claim_c9_witness :
    (repository_record repoMissingW).lookup "Stars Count" = some (Val.int 0) ∧
    (repository_record repoMissingW).lookup "Description" = some (Val.str "N/A") :=
  ⟨(claim_c9 repoMissingW).1 rfl, (claim_c9 repoMissingW).2 rfl⟩

end GHScraper
